import Mathlib

/-!
Verification of the GTA-tennis-clubs-waitlist scraper against its
natural-language specification.

The development is a shallow embedding of the Python sources:

* `data_merger.py`   — name/URL normalisation and the reference-data merge;
* `scraper_simple.py` — the requests/BeautifulSoup scraper (field extractors
  and `scrape_club`);
* `scraper.py`       — the Playwright scraper's extractors;
* `scraper_js.py`    — the JavaScript-capable scraper;
* `scraper_hybrid.py` — the hybrid orchestration;
* `app.py`           — the outreach e-mail filter;
* `email_agent.py`   — `identify_clubs_with_missing_data`.

Python dicts carrying club records are embedded as association lists
(`PyDict`), Python strings as `String`, and the handful of `re` patterns the
extractors use are embedded via a small executable backtracking matcher
(`RE` / `mtch`) whose constructs cover exactly the features those patterns
use (literals, character classes, greedy `*`/`+`/`?`, alternation, one level
of capture groups, `\b` and `$`).  BeautifulSoup DOM queries are modelled as
input fields of a `Soup` structure; network fetches as an explicit
`FetchOutcome` value.  All definitions are executable so that the theorems
below can be checked on concrete inputs by `decide`.
-/

/-! ## Characters and strings (Python `str` helpers) -/

/-- ASCII lower-casing of one character, as `str.lower` acts on ASCII text. -/
def asciiLower (c : Char) : Char :=
  if 'A' ≤ c ∧ c ≤ 'Z' then Char.ofNat (c.toNat + 32) else c

/-- Python's `\s` class (ASCII part): space, tab, newline, CR, FF, VT. -/
def pySpace (c : Char) : Bool :=
  c = ' ' || c = '\t' || c = '\n' || c = '\r' || c = '\x0b' || c = '\x0c'

/-- ASCII letter test. -/
def asciiAlpha (c : Char) : Bool :=
  ('a' ≤ c && c ≤ 'z') || ('A' ≤ c && c ≤ 'Z')

/-- ASCII digit test, Python's `\d` on ASCII text. -/
def asciiDigit (c : Char) : Bool :=
  '0' ≤ c && c ≤ '9'

/-- Python's `\w` class (ASCII part): letters, digits and underscore. -/
def pyWord (c : Char) : Bool :=
  asciiAlpha c || asciiDigit c || c = '_'

/-- Lower-case a whole string (`str.lower`). -/
def lowerStr (s : String) : String :=
  String.mk (s.toList.map asciiLower)

/-- Strip leading and trailing whitespace (`str.strip`). -/
def stripChars (l : List Char) : List Char :=
  ((l.dropWhile pySpace).reverse.dropWhile pySpace).reverse

/-- String version of `stripChars`. -/
def stripStr (s : String) : String :=
  String.mk (stripChars s.toList)

/-- Python's substring containment `needle in hay` on character lists. -/
def isSubList : List Char → List Char → Bool
  | hay, needle =>
    needle.isPrefixOf hay ||
      match hay with
      | [] => false
      | _ :: t => isSubList t needle

/-- Python's `sub in s` for strings. -/
def containsStr (s sub : String) : Bool :=
  isSubList s.toList sub.toList

/-- Membership of a character in a string (Python `c in s`). -/
def containsChar (s : String) (c : Char) : Bool :=
  s.toList.contains c

/-- Value of a digit string, as Python's `int` on a `\d+` capture. -/
def digitsToNat (l : List Char) : Nat :=
  l.foldl (fun a c => a * 10 + (c.toNat - 48)) 0

/-! ## Python dicts as association lists -/

/-- A Python dict with string keys and string values, in insertion order. -/
abbrev PyDict := List (String × String)

/-- Dict read, `d[k]` / `d.get(k)`: the first binding of the key, if any. -/
def dictGet : PyDict → String → Option String
  | [], _ => none
  | kv :: rest, k => if kv.1 = k then some kv.2 else dictGet rest k

/-- Dict read with the sentinel as default; the records built by the code
always carry every key they index, so the default is never reached there. -/
def getv (d : PyDict) (k : String) : String :=
  (dictGet d k).getD "N/A"

/-- Dict write `d[k] = v`: replace the first binding of the key in place,
or append a new binding (Python dict assignment). -/
def dictSet : PyDict → String → String → PyDict
  | [], k, v => [(k, v)]
  | kv :: rest, k, v =>
    if kv.1 = k then (k, v) :: rest else kv :: dictSet rest k v

/-- Python `d.update(new)`: assign every binding of `new` in order. -/
def dictUpdate (d : PyDict) (new : PyDict) : PyDict :=
  new.foldl (fun acc kv => dictSet acc kv.1 kv.2) d

/-- The value of the last binding of a key in a list of pairs (the binding
that survives when the pairs are assigned into a dict in order). -/
def lookupLast (l : PyDict) (k : String) : Option String :=
  dictGet l.reverse k

/-- First-defined choice on options (Python's "return at the first strategy
that produced something" control flow). -/
def optOr {α : Type} (a b : Option α) : Option α :=
  match a with
  | some v => some v
  | none => b

/-! ## A small executable backtracking regex matcher

The patterns used by the scrapers combine literals, character classes,
greedy `*` `+` `?` repetition, ordered alternation, non-capturing groups,
numbered capture groups, the word boundary `\b` and the end anchor `$`.
`mtch` implements exactly Python `re`'s leftmost, greedy, ordered-alternative
backtracking semantics for these constructs, in continuation-passing style.
The `fuel` argument only bounds the depth of the call stack (siblings of a
backtracking choice share fuel); `reFuel` below is a safe over-approximation
of the maximal depth, so the semantics never hits the bound. -/

/-- Regex abstract syntax, covering the constructs used by the sources. -/
inductive RE where
  | eps : RE
  | cls : (Char → Bool) → RE
  | seq : RE → RE → RE
  | alt : RE → RE → RE
  | opt : RE → RE
  | starCls : (Char → Bool) → RE
  | plusCls : (Char → Bool) → RE
  | star1 : RE → RE
  | grp : Nat → RE → RE
  | wordB : RE
  | eos : RE

/-- Captured groups: most recent first, looked up by group number. -/
abbrev Caps := List (Nat × List Char)

/-- Structural size of a regex, used only for the fuel bound. -/
def reSize : RE → Nat
  | .eps => 1
  | .cls _ => 1
  | .seq a b => reSize a + reSize b + 1
  | .alt a b => reSize a + reSize b + 1
  | .opt a => reSize a + 1
  | .starCls _ => 1
  | .plusCls _ => 1
  | .star1 a => reSize a + 1
  | .grp _ a => reSize a + 1
  | .wordB => 1
  | .eos => 1

/-- Word-character test on the optional previous/next character used by `\b`. -/
def isWordOpt : Option Char → Bool
  | none => false
  | some c => pyWord c

/-- Word-character test on the head of the remaining input. -/
def headIsWord : List Char → Bool
  | [] => false
  | c :: _ => pyWord c

/-- Greedy match of a character class repetition with backtracking, in CPS:
consume as many class characters as possible, then give back one at a time. -/
def starGreedy (p : Char → Bool) (prev : Option Char) (s : List Char)
    (caps : Caps) (k : Option Char → List Char → Caps → Option α) : Option α :=
  match s with
  | [] => k prev s caps
  | c :: rest =>
    if p c then
      match starGreedy p (some c) rest caps k with
      | some res => some res
      | none => k prev s caps
    else k prev s caps

/-- Backtracking matcher in CPS.  `prev` is the character just before the
current position (for `\b`), `caps` the capture groups closed so far, `k` the
continuation receiving the state after this sub-pattern. -/
def mtch : Nat → RE → Option Char → List Char → Caps →
    (Option Char → List Char → Caps → Option α) → Option α
  | 0, _, _, _, _, _ => none
  | fuel + 1, r, prev, s, caps, k =>
    match r with
    | .eps => k prev s caps
    | .cls p =>
      match s with
      | [] => none
      | c :: rest => if p c then k (some c) rest caps else none
    | .seq a b => mtch fuel a prev s caps fun p1 s1 c1 => mtch fuel b p1 s1 c1 k
    | .alt a b =>
      match mtch fuel a prev s caps k with
      | some res => some res
      | none => mtch fuel b prev s caps k
    | .opt a =>
      match mtch fuel a prev s caps k with
      | some res => some res
      | none => k prev s caps
    | .starCls p => starGreedy p prev s caps k
    | .plusCls p =>
      match s with
      | [] => none
      | c :: rest => if p c then starGreedy p (some c) rest caps k else none
    | .star1 a =>
      match mtch fuel a prev s caps
          (fun p1 s1 c1 =>
            if s1.length < s.length then mtch fuel (.star1 a) p1 s1 c1 k
            else none) with
      | some res => some res
      | none => k prev s caps
    | .grp n a =>
      mtch fuel a prev s caps fun p1 s1 c1 =>
        k p1 s1 ((n, s.take (s.length - s1.length)) :: c1)
    | .wordB => if isWordOpt prev != headIsWord s then k prev s caps else none
    | .eos =>
      match s with
      | [] => k prev s caps
      | _ => none

/-- Fuel sufficient for any match attempt of `r` on `s`: call-stack depth is
bounded by one regex traversal per character consumed plus one. -/
def reFuel (r : RE) (s : List Char) : Nat :=
  (s.length + 1) * (reSize r + 1) + 8

/-- Try to match `r` at the start of `s`; on success return the remaining
input after the (leftmost, greedy) match together with the captures. -/
def reMatchAt (r : RE) (prev : Option Char) (s : List Char) :
    Option (Caps × List Char) :=
  mtch (reFuel r s) r prev s [] fun _ s1 caps => some (caps, s1)

/-- Python `re.search` as a Boolean: try every start position left to right. -/
def reSearchAux (r : RE) (prev : Option Char) (s : List Char) : Option Caps :=
  match reMatchAt r prev s with
  | some (caps, _) => some caps
  | none =>
    match s with
    | [] => none
    | c :: rest => reSearchAux r (some c) rest

/-- Search a whole string, returning the first match's captures. -/
def reSearch (r : RE) (s : String) : Option Caps :=
  reSearchAux r none s.toList

/-- Boolean form of `reSearch`. -/
def reSearchB (r : RE) (s : String) : Bool :=
  (reSearch r s).isSome

/-- Read one numbered capture group out of a match (`match.group(n)`). -/
def capGet (caps : Caps) (n : Nat) : List Char :=
  match caps.find? (fun e => e.1 = n) with
  | some e => e.2
  | none => []

/-- String form of `capGet`. -/
def capStr (caps : Caps) (n : Nat) : String :=
  String.mk (capGet caps n)

/-- Numeric value of a digit capture group (`int(match.group(n))`). -/
def capNat (caps : Caps) (n : Nat) : Nat :=
  digitsToNat (capGet caps n)

/-- Python `re.finditer`: all non-overlapping matches, scanning left to
right; after a non-empty match continue right after it, after an empty match
advance one character.  Returns matched text and captures for each match. -/
def findAllAux (fuel : Nat) (r : RE) (prev : Option Char) (s : List Char) :
    List (List Char × Caps) :=
  match fuel with
  | 0 => []
  | fuel + 1 =>
    match reMatchAt r prev s with
    | some (caps, s1) =>
      let m := s.take (s.length - s1.length)
      if s1.length < s.length then
        (m, caps) :: findAllAux fuel r (m.getLast?.orElse fun _ => prev) s1
      else
        match s with
        | [] => [(m, caps)]
        | c :: rest => (m, caps) :: findAllAux fuel r (some c) rest
    | none =>
      match s with
      | [] => []
      | c :: rest => findAllAux fuel r (some c) rest

/-- All matches of `r` in `s` (text and captures). -/
def findAll (r : RE) (s : String) : List (List Char × Caps) :=
  findAllAux (s.length + 1) r none s.toList

/-- Python `re.sub(r, repl, s)` for the patterns used here: replace every
non-overlapping leftmost match by `repl`. -/
def reSubAux (fuel : Nat) (r : RE) (repl : List Char) (prev : Option Char)
    (s : List Char) : List Char :=
  match fuel with
  | 0 => s
  | fuel + 1 =>
    match reMatchAt r prev s with
    | some (_, s1) =>
      if s1.length < s.length then
        let m := s.take (s.length - s1.length)
        repl ++ reSubAux fuel r repl (m.getLast?.orElse fun _ => prev) s1
      else
        match s with
        | [] => repl
        | c :: rest => repl ++ c :: reSubAux fuel r repl (some c) rest
    | none =>
      match s with
      | [] => []
      | c :: rest => c :: reSubAux fuel r repl (some c) rest

/-- String version of `reSubAux`. -/
def reSub (r : RE) (repl : String) (s : String) : String :=
  String.mk (reSubAux (s.length + 1) r repl.toList none s.toList)

/-! ### Pattern construction helpers -/

/-- Literal character (case sensitive). -/
def chR (c : Char) : RE := .cls (fun x => x = c)

/-- Literal character, case-insensitively (`re.I`). -/
def chCI (c : Char) : RE := .cls (fun x => asciiLower x = asciiLower c)

/-- Sequence a list of regexes. -/
def seqAll (l : List RE) : RE := l.foldr RE.seq .eps

/-- Literal string (case sensitive). -/
def strR (s : String) : RE := seqAll (s.toList.map chR)

/-- Literal string, case-insensitively. -/
def strCI (s : String) : RE := seqAll (s.toList.map chCI)

/-- One-or-more whitespace, `\s+`. -/
def sp1 : RE := .plusCls pySpace

/-- Zero-or-more whitespace, `\s*`. -/
def sp0 : RE := .starCls pySpace

/-- One-or-more digits, `\d+`. -/
def dig1 : RE := .plusCls asciiDigit

/-- Ordered alternation of a non-empty list of regexes. -/
def altAll : List RE → RE
  | [] => .eps
  | [r] => r
  | r :: rest => .alt r (altAll rest)

/-! ## `data_merger.py` — normalisation and the reference-data merge -/

namespace DataMerger

/-- Pattern `\s*tennis\s*club\s*` from `DataMerger.normalize_name` (the input
is already lower-cased when the substitution runs). -/
def tennisClubPat : RE :=
  seqAll [sp0, strR "tennis", sp0, strR "club", sp0]

/-- Pattern `\s*tc\s*` from `DataMerger.normalize_name`. -/
def tcPat : RE :=
  seqAll [sp0, strR "tc", sp0]

/-- Embeds `DataMerger.normalize_name` (data_merger.py lines 44-54).
`none` stands for a `NaN` input (`pd.isna`), which yields the empty key.
The function is a total Lean function: it returns a string on every input. -/
def normalize_name (name : Option String) : String :=
  match name with
  | none => ""
  | some raw =>
    let n := stripStr (lowerStr raw)
    let n := reSub sp1 " " n
    let n := reSub tennisClubPat " " n
    let n := reSub tcPat " " n
    stripStr n

/-- Embeds `DataMerger.normalize_url` (data_merger.py lines 56-64): lower-case
and strip, drop a leading `http://`/`https://` (the regex `^https?://`), drop
a leading `www.`, drop one trailing slash (`/$`).  Total on every input. -/
def normalize_url (url : Option String) : String :=
  match url with
  | none => ""
  | some raw =>
    let u := stripChars (lowerStr raw).toList
    let u :=
      if "https://".toList.isPrefixOf u then u.drop 8
      else if "http://".toList.isPrefixOf u then u.drop 7
      else u
    let u := if "www.".toList.isPrefixOf u then u.drop 4 else u
    let u := if u.getLast? = some '/' then u.dropLast else u
    String.mk u

/-- The non-sentinel bindings of a row dict: `{k: v for k, v in data.items()
if v != 'N/A'}` (data_merger.py line 130). -/
def filterNonNA (d : PyDict) : PyDict :=
  d.filter fun kv => !(kv.2 == "N/A")

/-- Embeds the amend step of `DataMerger.build_lookup_dict` (lines 127-131):
when a normalized key already has an entry, the existing dict is `update`d
with every non-`"N/A"` binding of the later (Toronto) row, and the source tag
is set to the combination. -/
def mergeEntryAmend (existing data : PyDict) : PyDict :=
  dictSet (dictUpdate existing (filterNonNA data)) "source" "OTA+Toronto"

/-- OTA-shaped entry used as a concrete merge input (lines 86-93). -/
def otaEntryEx : PyDict :=
  [("source", "OTA"), ("Club Name", "X Club"), ("Email", "a@x.com"),
   ("Location", "Toronto"), ("Club Type", "Private"), ("Website", "x.ca")]

/-- Toronto-shaped entry used as a concrete merge input (lines 117-125). -/
def torontoEntryEx : PyDict :=
  [("source", "Toronto"), ("Club Name", "X Club"),
   ("Number of Courts", "4"), ("Membership Status", "N/A"),
   ("Phone", "N/A"), ("Club Type", "Public"), ("Website", "x.ca")]

/-- Minimal merge inputs matching the spec's Email/Courts example. -/
def specExistingEx : PyDict :=
  [("Email", "a@x.com"), ("Number of Courts", "N/A")]

/-- Later-source dict for the spec's Email/Courts example. -/
def specLaterEx : PyDict :=
  [("Email", "N/A"), ("Number of Courts", "4")]

end DataMerger

/-! ## Shared helpers for first-match loops -/

/-- First element of a list on which `f` produces a value (a Python
`for`-loop whose body `return`s inside a conditional). -/
def pickFirst {α β : Type} (f : α → Option β) : List α → Option β
  | [] => none
  | a :: rest =>
    match f a with
    | some b => some b
    | none => pickFirst f rest

/-- First element of a list satisfying `p` (a Python `for`-loop that
`return`s the element when a test passes). -/
def findFirst {α : Type} (p : α → Bool) : List α → Option α
  | [] => none
  | a :: rest => if p a then some a else findFirst p rest

/-- Join a list of strings with a separator (`sep.join(...)`). -/
def joinSep (sep : String) : List String → String
  | [] => ""
  | [x] => x
  | x :: rest => x ++ sep ++ joinSep sep rest

/-! ## The generic e-mail regex, shared by the scrapers

Pattern: `\b[A-Za-z0-9._%+-]+@[A-Za-z0-9.-]+\.[A-Z|a-z]{2,}\b`
(the character class `[A-Z|a-z]` of the source really does contain `|`). -/

/-- Class `[A-Za-z0-9._%+-]` (e-mail local part). -/
def emailLocalC (c : Char) : Bool :=
  asciiAlpha c || asciiDigit c || c = '.' || c = '_' || c = '%' ||
    c = '+' || c = '-'

/-- Class `[A-Za-z0-9.-]` (e-mail domain). -/
def emailDomC (c : Char) : Bool :=
  asciiAlpha c || asciiDigit c || c = '.' || c = '-'

/-- Class `[A-Z|a-z]` (top-level domain, including the literal `|`). -/
def emailTldC (c : Char) : Bool :=
  asciiAlpha c || c = '|'

/-- The generic e-mail pattern. -/
def emailPat : RE :=
  seqAll [.wordB, .plusCls emailLocalC, chR '@', .plusCls emailDomC,
          chR '.', .cls emailTldC, .cls emailTldC, .starCls emailTldC,
          .wordB]

/-- All e-mail-shaped substrings of a text (`re.findall(email_pattern, t)`). -/
def findEmails (t : String) : List String :=
  (findAll emailPat t).map fun m => String.mk m.1

/-! ## `scraper_simple.py` — extractors and `scrape_club` -/

namespace ScraperSimple

/-- The DOM-derived inputs `scrape_club` and the extractors read from the
parsed page.  BeautifulSoup itself is an external collaborator, so each
query result is a field: `mailtoEmail` is the processed address of the first
`mailto:` link if one exists, `metaEmail` the `content` of an e-mail meta
tag, `contactText` / `footerText` / `facilitiesText` the visible text of the
matching section if found, `hasContactLinks` whether any contact/email link
exists, `pageText` the visible page text after script/style removal, and
`jsHeavy` the outcome of the script-count framework heuristic. -/
structure Soup where
  pageText : String
  jsHeavy : Bool
  mailtoEmail : Option String
  metaEmail : Option String
  contactText : Option String
  footerText : Option String
  facilitiesText : Option String
  hasContactLinks : Bool

/-- GTA city gazetteer (`extract_city_from_address` lines 33-39). -/
def gtaCities : List String :=
  ["Toronto", "Mississauga", "Brampton", "Hamilton", "Markham",
   "Vaughan", "Richmond Hill", "Oakville", "Burlington", "Oshawa",
   "Pickering", "Ajax", "Whitby", "Newmarket", "Aurora",
   "Milton", "Caledon", "Georgina", "Stouffville", "King",
   "Etobicoke", "Scarborough", "North York", "East York"]

/-- Class `[A-Z]`. -/
def upperC (c : Char) : Bool := 'A' ≤ c && c ≤ 'Z'

/-- Class `[a-z]`. -/
def lowerC (c : Char) : Bool := 'a' ≤ c && c ≤ 'z'

/-- Pattern `([A-Z][a-z]+(?:\s+[A-Z][a-z]+)*),?\s+ON` (case sensitive,
searched on the original text). -/
def postalPat : RE :=
  seqAll [.grp 1 (seqAll [.cls upperC, .plusCls lowerC,
            .star1 (seqAll [sp1, .cls upperC, .plusCls lowerC])]),
          .opt (chR ','), sp1, strR "ON"]

/-- Embeds `TennisClubScraper.extract_city_from_address`
(scraper_simple.py lines 30-51). -/
def extract_city_from_address (text : String) : String :=
  let tl := lowerStr text
  match findFirst (fun city => containsStr tl (lowerStr city)) gtaCities with
  | some city => city
  | none =>
    match reSearch postalPat text with
    | some caps => capStr caps 1
    | none => "N/A"

/-- Pattern `(\w+)\s*(?:@|AT|at)\s*(\w+)\s*(?:\.|DOT|dot)\s*(\w+)` with
`re.I` (the de-obfuscation pass, lines 123-127). -/
def obfuscatedPat : RE :=
  seqAll [.grp 1 (.plusCls pyWord), sp0,
          altAll [chR '@', strCI "AT", strCI "at"], sp0,
          .grp 2 (.plusCls pyWord), sp0,
          altAll [chR '.', strCI "DOT", strCI "dot"], sp0,
          .grp 3 (.plusCls pyWord)]

/-- Filter used in the contact-section and footer strategies: first e-mail
whose lower-case form contains none of `example`, `test`, `noreply`. -/
def sectionEmailPick (emails : List String) : Option String :=
  findFirst
    (fun e => !(["example", "test", "noreply"].any
      fun x => containsStr (lowerStr e) x)) emails

/-- Blacklist of the whole-page strategy (lines 96-98). -/
def emailBlacklist : List String :=
  ["example.com", "test.com", "placeholder", "yourdomain", "email.com",
   "sample.com", "domain.com", "sampleemail", "noreply", "no-reply",
   "privacy@", "legal@", "abuse@"]

/-- Role-keyword priority list of the whole-page strategy (line 101). -/
def emailPriority : List String :=
  ["info@", "contact@", "tennis@", "club@", "admin@", "president@"]

/-- The priority/other split of the whole-page strategy (lines 103-115):
skip blacklisted addresses and keep the rest in order, role-keyword
addresses first. -/
def classifyEmails (emails : List String) : List String × List String :=
  emails.foldl
    (fun acc e =>
      let el := lowerStr e
      if emailBlacklist.any (fun x => containsStr el x) then acc
      else if emailPriority.any (fun x => containsStr el x) then
        (acc.1 ++ [e], acc.2)
      else (acc.1, acc.2 ++ [e]))
    ([], [])

/-- Embeds `TennisClubScraper.extract_email` (lines 53-134): mailto link,
e-mail meta tag, contact section, footer, whole page with
blacklist/priority ranking, de-obfuscation, contact-page placeholder. -/
def extract_email (soup : Soup) (page_text : String) : String :=
  let s1 : Option String :=
    match soup.mailtoEmail with
    | some e => if containsChar e '@' then some e else none
    | none => none
  let s2 : Option String :=
    match soup.metaEmail with
    | some c =>
      if c ≠ "" then
        (if containsChar (stripStr c) '@' then some (stripStr c) else none)
      else none
    | none => none
  let s3 : Option String :=
    match soup.contactText with
    | some t => sectionEmailPick (findEmails t)
    | none => none
  let s4 : Option String :=
    match soup.footerText with
    | some t => sectionEmailPick (findEmails t)
    | none => none
  let s5 : Option String :=
    match classifyEmails (findEmails page_text) with
    | (p :: _, _) => some p
    | ([], o :: _) => some o
    | ([], []) => none
  let s6 : Option String :=
    match reSearch obfuscatedPat page_text with
    | some caps =>
      some (capStr caps 1 ++ "@" ++ capStr caps 2 ++ "." ++ capStr caps 3)
    | none => none
  let s7 : Option String :=
    if soup.hasContactLinks then some "Contact form available" else none
  (optOr s1 (optOr s2 (optOr s3 (optOr s4
    (optOr s5 (optOr s6 s7)))))).getD "N/A"

/-- Class `[:\s]`. -/
def colonSp (c : Char) : Bool := c = ':' || pySpace c

/-- The optional `(?:people|members|players)?` tail. -/
def peopleOpt : RE :=
  .opt (altAll [strR "people", strR "members", strR "players"])

/-- The five waitlist-length patterns (lines 139-145), searched in order on
the lower-cased text. -/
def waitlistPatterns : List RE :=
  [seqAll [strR "waitlist", .plusCls colonSp, .grp 1 dig1, sp0, peopleOpt],
   seqAll [.grp 1 dig1, sp0, peopleOpt, sp1, strR "on", sp1,
           .opt (seqAll [strR "the", sp1]), strR "waitlist"],
   seqAll [strR "waiting", sp1, strR "list", .plusCls colonSp, .grp 1 dig1],
   seqAll [.grp 1 dig1, sp0, strR "year", sp1, strR "waitlist"],
   seqAll [.grp 1 (seqAll [.cls asciiDigit,
             .opt (seqAll [.cls asciiDigit, .opt (.cls asciiDigit)])]),
           sp0, .opt (chR '+'), sp0, strR "on", sp1, strR "wait"]]

/-- Pattern `no\s+waitlist|waitlist\s+is\s+closed|not\s+accepting`. -/
def noWaitlistPat : RE :=
  altAll [seqAll [strR "no", sp1, strR "waitlist"],
          seqAll [strR "waitlist", sp1, strR "is", sp1, strR "closed"],
          seqAll [strR "not", sp1, strR "accepting"]]

/-- Pattern `long\s+waitlist|extensive\s+waitlist|several\s+years?`. -/
def longWaitlistPat : RE :=
  altAll [seqAll [strR "long", sp1, strR "waitlist"],
          seqAll [strR "extensive", sp1, strR "waitlist"],
          seqAll [strR "several", sp1, strR "year", .opt (chR 's')]]

/-- Embeds `TennisClubScraper.extract_waitlist_length` (lines 136-159). -/
def extract_waitlist_length (page_text : String) : String :=
  let t := lowerStr page_text
  match pickFirst
      (fun r => (reSearch r t).map fun caps => capStr caps 1)
      waitlistPatterns with
  | some s => s
  | none =>
    if reSearchB noWaitlistPat t then "0"
    else if reSearchB longWaitlistPat t then "Long"
    else "N/A"

/-- Pattern `(?:accepting|open)\s+(?:new\s+)?(?:members|memberships|applications)`
(line 166). -/
def openPat : RE :=
  seqAll [altAll [strR "accepting", strR "open"], sp1,
          .opt (seqAll [strR "new", sp1]),
          altAll [strR "members", strR "memberships", strR "applications"]]

/-- Pattern `waitlist|waiting\s+list|join\s+(?:our\s+)?wait` (line 170). -/
def waitPat : RE :=
  altAll [strR "waitlist",
          seqAll [strR "waiting", sp1, strR "list"],
          seqAll [strR "join", sp1, .opt (seqAll [strR "our", sp1]),
                  strR "wait"]]

/-- Pattern `not\s+accepting|membership\s+(?:is\s+)?closed|full\s+capacity`
(line 174). -/
def closedPat : RE :=
  altAll [seqAll [strR "not", sp1, strR "accepting"],
          seqAll [strR "membership", sp1, .opt (seqAll [strR "is", sp1]),
                  strR "closed"],
          seqAll [strR "full", sp1, strR "capacity"]]

/-- Embeds `TennisClubScraper.extract_membership_status` (lines 161-177).
The open-membership check runs first, then the waitlist check, then the
closed check. -/
def extract_membership_status (page_text : String) : String :=
  let t := lowerStr page_text
  if reSearchB openPat t then "Open"
  else if reSearchB waitPat t then "Waitlist"
  else if reSearchB closedPat t then "Closed"
  else "N/A"

/-- The suffix `courts?`. -/
def courtsSfx : RE := seqAll [strR "court", .opt (chR 's')]

/-- The optional `(?:tennis\s+)?` piece. -/
def tennisOpt : RE := .opt (seqAll [strR "tennis", sp1])

/-- Facilities-section pattern `(\d+)\s+(?:tennis\s+)?courts?` (line 186). -/
def facCourtsPat : RE :=
  seqAll [.grp 1 dig1, sp1, tennisOpt, courtsSfx]

/-- The ten court-count patterns of strategy 2 (lines 193-204), in order. -/
def courtPatterns : List RE :=
  [seqAll [.grp 1 dig1, sp1, tennisOpt, courtsSfx,
           altAll [.cls pySpace, chR ',', chR '.', chR ')', .eos]],
   seqAll [strR "court", .opt (chR 's'), .plusCls colonSp, .grp 1 dig1],
   seqAll [strR "total", sp1, .opt (seqAll [strR "of", sp1]),
           .grp 1 dig1, sp1, courtsSfx],
   seqAll [strR "we", sp1, strR "have", sp1, .grp 1 dig1, sp1, courtsSfx],
   seqAll [strR "featuring", sp1, .grp 1 dig1, sp1, courtsSfx],
   seqAll [.grp 1 dig1, sp1, altAll [strR "indoor", strR "outdoor"],
           sp1, courtsSfx],
   seqAll [strR "club", sp1, strR "has", sp1, .grp 1 dig1, sp1, courtsSfx],
   seqAll [strR "facilities", sp1, strR "include", sp1, .grp 1 dig1,
           sp1, courtsSfx],
   seqAll [.grp 1 dig1, .cls (fun c => c = '-' || pySpace c), strR "court"],
   seqAll [strR "with", sp1, .grp 1 dig1, sp1, courtsSfx]]

/-- The spelled-out numbers of strategy 3 (lines 215-218), in dict order. -/
def wordNums : List (String × Nat) :=
  [("one", 1), ("two", 2), ("three", 3), ("four", 4), ("five", 5),
   ("six", 6), ("seven", 7), ("eight", 8), ("nine", 9), ("ten", 10)]

/-- Pattern `\b{word}\s+(?:tennis\s+)?courts?` for a spelled-out number. -/
def wordCourtsPat (w : String) : RE :=
  seqAll [.wordB, strR w, sp1, tennisOpt, courtsSfx]

/-- The `[1, 50]` sanity bound (line 211). -/
def courtInRange (n : Nat) : Bool := 1 ≤ n && n ≤ 50

/-- Strategy 1: one search in the facilities-section text, accepted only in
range; an out-of-range match falls through to strategy 2 (lines 183-190). -/
def courtsStrategy1 (facText : Option String) : Option Nat :=
  match facText with
  | none => none
  | some ft =>
    match reSearch facCourtsPat (lowerStr ft) with
    | some caps =>
      let n := capNat caps 1
      if courtInRange n then some n else none
    | none => none

/-- Strategy 2: for each pattern in order, every match in order, first
in-range count wins (lines 206-212). -/
def courtsStrategy2 (t : String) : Option Nat :=
  pickFirst
    (fun r =>
      findFirst courtInRange ((findAll r t).map fun m => capNat m.2 1))
    courtPatterns

/-- Strategy 3: first spelled-out number with a match (lines 219-221). -/
def courtsStrategy3 (t : String) : Option Nat :=
  pickFirst
    (fun wn => if reSearchB (wordCourtsPat wn.1) t then some wn.2 else none)
    wordNums

/-- Embeds `TennisClubScraper.extract_courts_count` (lines 179-223).  The
Python code searches the original text under `re.I`; the embedding
lower-cases the text first, which is equivalent for these patterns (their
letters are literals, the captures are digits). -/
def extract_courts_count (soup : Soup) (page_text : String) : String :=
  match optOr (courtsStrategy1 soup.facilitiesText)
      (optOr (courtsStrategy2 (lowerStr page_text))
        (courtsStrategy3 (lowerStr page_text))) with
  | some n => toString n
  | none => "N/A"

/-- Pattern for hard courts (line 232). -/
def hardPat : RE :=
  altAll [seqAll [.wordB, strR "hard", sp0, courtsSfx],
          seqAll [.wordB, strR "hardcourt", .opt (chR 's')],
          seqAll [.wordB, strR "hard", .cls (fun c => c = '-' || pySpace c),
                  strR "surface"],
          seqAll [.wordB, strR "asphalt"],
          seqAll [.wordB, strR "concrete", sp0, courtsSfx]]

/-- Pattern for clay courts (line 236). -/
def clayPat : RE :=
  altAll [seqAll [.wordB, strR "clay", sp0, courtsSfx],
          seqAll [.wordB, strR "red", sp0, strR "clay"],
          seqAll [.wordB, strR "har-tru"],
          seqAll [.wordB, strR "green", sp0, strR "clay"]]

/-- Pattern for grass courts (line 240). -/
def grassPat : RE :=
  altAll [seqAll [.wordB, strR "grass", sp0, courtsSfx],
          seqAll [.wordB, strR "lawn", sp0, courtsSfx]]

/-- Pattern for indoor facilities (line 244). -/
def indoorPat : RE :=
  altAll [seqAll [.wordB, strR "indoor", sp0, courtsSfx],
          seqAll [.wordB, strR "enclosed"],
          seqAll [.wordB, strR "bubble"],
          seqAll [.wordB, strR "dome"]]

/-- Pattern for outdoor facilities (line 246). -/
def outdoorPat : RE :=
  altAll [seqAll [.wordB, strR "outdoor", sp0, courtsSfx],
          seqAll [.wordB, strR "open-air"]]

/-- Pattern for synthetic surfaces (line 251). -/
def syntheticPat : RE :=
  altAll [seqAll [.wordB, strR "synthetic"],
          seqAll [.wordB, strR "artificial", sp0, strR "grass"],
          seqAll [.wordB, strR "turf", sp0, courtsSfx]]

/-- Embeds `TennisClubScraper.extract_court_surface` (lines 225-257).  The
Python code joins `set(surfaces_found)`, whose iteration order CPython does
not fix; the list built here has no duplicates, and the embedding joins it
in construction order. -/
def extract_court_surface (page_text : String) : String :=
  let t := lowerStr page_text
  let l0 : List String := []
  let l1 := if reSearchB hardPat t then l0 ++ ["Hard"] else l0
  let l2 := if reSearchB clayPat t then l1 ++ ["Clay"] else l1
  let l3 := if reSearchB grassPat t then l2 ++ ["Grass"] else l2
  let l4 := if reSearchB indoorPat t then l3 ++ ["Indoor"] else l3
  let l5 :=
    if reSearchB outdoorPat t then
      (if l4.contains "Indoor" then l4 else l4 ++ ["Outdoor"])
    else l4
  let l6 := if reSearchB syntheticPat t then l5 ++ ["Synthetic"] else l5
  if l6.isEmpty then "N/A" else joinSep ", " l6

/-- Embeds `TennisClubScraper.extract_operating_season` (lines 259-273). -/
def extract_operating_season (page_text : String) : String :=
  let t := lowerStr page_text
  if containsStr t "year round" || containsStr t "year-round" ||
      containsStr t "all year" then "Year-round"
  else if containsStr t "seasonal" &&
      (containsStr t "april" || containsStr t "may") then
    "Seasonal (Spring-Fall)"
  else if containsStr t "outdoor only" then "Seasonal"
  else if containsStr t "indoor" && containsStr t "outdoor" then "Year-round"
  else "N/A"

/-- Pattern `private\s+club|members?\s+only|membership\s+required`
(line 279). -/
def privatePat : RE :=
  altAll [seqAll [strR "private", sp1, strR "club"],
          seqAll [strR "member", .opt (chR 's'), sp1, strR "only"],
          seqAll [strR "membership", sp1, strR "required"]]

/-- Pattern `public|community|municipal|city\s+of` (line 281). -/
def publicPat : RE :=
  altAll [strR "public", strR "community", strR "municipal",
          seqAll [strR "city", sp1, strR "of"]]

/-- Embeds `TennisClubScraper.extract_club_type` (lines 275-284). -/
def extract_club_type (page_text : String) : String :=
  let t := lowerStr page_text
  if reSearchB privatePat t then "Private"
  else if reSearchB publicPat t then "Public"
  else "N/A"

end ScraperSimple

namespace ScraperSimple

/-- Substring-prefix test that reduces in the kernel (`str.startswith`). -/
def strStarts (s p : String) : Bool := p.toList.isPrefixOf s.toList

/-- The failure taxonomy of `scrape_club`'s `except` clauses
(scraper_simple.py lines 410-433). -/
inductive FetchFailure where
  | timeout : FetchFailure
  | httpError : Nat → FetchFailure
  | connectionError : FetchFailure
  | tooManyRedirects : FetchFailure
  | otherError : String → String → FetchFailure

/-- The status string each failure branch stores (`self.timeout` is 15). -/
def failureMsg : FetchFailure → String
  | .timeout => "Timeout after 15s"
  | .httpError code => "HTTP " ++ toString code
  | .connectionError => "Connection failed"
  | .tooManyRedirects => "Too many redirects"
  | .otherError exnName msg => exnName ++ ": " ++ String.mk (msg.toList.take 100)

/-- Outcome of the HTTP fetch: a parsed page or one of the failures. -/
inductive FetchOutcome where
  | success : Soup → FetchOutcome
  | fail : FetchFailure → FetchOutcome

/-- The initial record dict of `scrape_club` (lines 288-300): every schema
field bound to the sentinel, status `Failed`. -/
def initResult (club_name url : String) : PyDict :=
  [("Club Name", club_name), ("Website", url), ("Email", "N/A"),
   ("Location", "N/A"), ("Club Type", "N/A"), ("Membership Status", "N/A"),
   ("Waitlist Length", "N/A"), ("Number of Courts", "N/A"),
   ("Court Surface", "N/A"), ("Operating Season", "N/A"),
   ("Scrape Status", "Failed")]

/-- The fields seeded from the data merger (lines 310-311). -/
def preloadKeys : List String :=
  ["Email", "Location", "Club Type", "Membership Status",
   "Number of Courts", "Court Surface", "Operating Season"]

/-- Seed the record from an existing reference entry: copy each preload key
present in the entry with a non-sentinel value (lines 310-313). -/
def applyPreload (r : PyDict) (ex : PyDict) : PyDict :=
  preloadKeys.foldl
    (fun acc k =>
      match dictGet ex k with
      | some v => if v ≠ "N/A" then dictSet acc k v else acc
      | none => acc)
    r

/-- The preload section of `scrape_club` (lines 302-323): build the initial
record, seed it from the merger entry if one matched, and mark the record
pre-loaded when that produced an e-mail or a court count. -/
def preloadPhase (merger : Option PyDict) (url club_name : String) : PyDict :=
  let result := initResult club_name url
  match merger with
  | none => result
  | some ex =>
    let r := applyPreload result ex
    if getv r "Email" ≠ "N/A" ∨ getv r "Number of Courts" ≠ "N/A" then
      dictSet r "Scrape Status"
        ("Pre-loaded (" ++ (dictGet ex "source").getD "DB" ++ ")")
    else r

/-- The eight guarded extraction steps of `scrape_club` (lines 373-389), in
source order: each field is extracted only while it still holds the
sentinel. -/
def extractors : List (String × (Soup → String → String)) :=
  [("Email", fun s t => extract_email s t),
   ("Location", fun _ t => extract_city_from_address t),
   ("Club Type", fun _ t => extract_club_type t),
   ("Membership Status", fun _ t => extract_membership_status t),
   ("Waitlist Length", fun _ t => extract_waitlist_length t),
   ("Number of Courts", fun s t => extract_courts_count s t),
   ("Court Surface", fun _ t => extract_court_surface t),
   ("Operating Season", fun _ t => extract_operating_season t)]

/-- Run the guarded extraction steps over the record. -/
def extractPhase (soup : Soup) (page_text : String) (r : PyDict) : PyDict :=
  extractors.foldl
    (fun acc kf =>
      if getv acc kf.1 = "N/A" then dictSet acc kf.1 (kf.2 soup page_text)
      else acc)
    r

/-- Number of sentinel values in the record
(`len([v for v in result.values() if v == 'N/A'])`, line 395). -/
def countNA (r : PyDict) : Nat :=
  (r.map Prod.snd).countP fun v => v == "N/A"

/-- Embeds `TennisClubScraper.scrape_club` (lines 286-435): preload, fetch,
guarded extraction on success with enough visible text, status
classification; on any fetch failure the corresponding status string is
stored and no extraction runs. -/
def scrape_club (merger : Option PyDict) (url club_name : String)
    (fetch : FetchOutcome) : PyDict :=
  let result := preloadPhase merger url club_name
  match fetch with
  | .fail f => dictSet result "Scrape Status" (failureMsg f)
  | .success soup =>
    let page_text := soup.pageText
    if page_text.length < 200 then
      dictSet result "Scrape Status" "JS-heavy (limited data)"
    else
      let r := extractPhase soup page_text result
      if strStarts (getv r "Scrape Status") "Pre-loaded" then r
      else if soup.jsHeavy && decide (countNA r > 5) then
        dictSet r "Scrape Status" "Success (JS-limited)"
      else dictSet r "Scrape Status" "Success"

end ScraperSimple

/-! ## `scraper.py` — the Playwright scraper's extractors -/

namespace ScraperPw

/-- Embeds the Playwright `TennisClubScraper.extract_membership_status`
(scraper.py lines 110-121): here the waitlist check runs first. -/
def extract_membership_status (page_text : String) : String :=
  let t := lowerStr page_text
  if containsStr t "waitlist" || containsStr t "wait list" ||
      containsStr t "waiting list" then "Waitlist"
  else if containsStr t "accepting members" ||
      containsStr t "membership available" then "Open"
  else if containsStr t "membership closed" ||
      containsStr t "not accepting" then "Closed"
  else "N/A"

/-- The three count patterns of `extract_court_info` (scraper.py lines
153-157): `(\d+)\s*(?:indoor|outdoor)?\s*courts?`, `courts?:\s*(\d+)`,
`(\d+)\s*tennis\s*courts?`, searched in order on the lower-cased text. -/
def courtInfoPatterns : List RE :=
  [seqAll [.grp 1 dig1, sp0, .opt (altAll [strR "indoor", strR "outdoor"]),
           sp0, ScraperSimple.courtsSfx],
   seqAll [strR "court", .opt (chR 's'), chR ':', sp0, .grp 1 dig1],
   seqAll [.grp 1 dig1, sp0, strR "tennis", sp0, ScraperSimple.courtsSfx]]

/-- Embeds the court-count half of the Playwright
`TennisClubScraper.extract_court_info` (scraper.py lines 147-163): the first
pattern match wins and its raw digit capture is returned — there is no
`[1, 50]` sanity bound in this variant. -/
def extract_court_info_num (page_text : String) : String :=
  let t := lowerStr page_text
  match pickFirst
      (fun r => (reSearch r t).map fun caps => capStr caps 1)
      courtInfoPatterns with
  | some s => s
  | none => "N/A"

end ScraperPw

/-! ## `scraper_js.py` — the JavaScript-capable scraper -/

namespace ScraperJs

/-- Outcome of the Playwright page load in `JavaScriptScraper.scrape_club`:
the rendered page (visible text plus the mailto query result), a timeout, or
another exception (carrying `type(e).__name__`). -/
inductive JsFetchOutcome where
  | success : String → Option String → JsFetchOutcome
  | timeout : JsFetchOutcome
  | error : String → JsFetchOutcome

/-- Blacklist of `_extract_email` (scraper_js.py line 125). -/
def jsBlacklist : List String :=
  ["example.com", "test.com", "noreply", "privacy@", "legal@"]

/-- Priority keywords of `_extract_email` (line 126). -/
def jsPriority : List String :=
  ["info@", "contact@", "tennis@", "club@", "admin@"]

/-- The priority/other split of `_extract_email` (lines 128-138). -/
def jsClassifyEmails (emails : List String) : List String × List String :=
  emails.foldl
    (fun acc e =>
      let el := lowerStr e
      if jsBlacklist.any (fun x => containsStr el x) then acc
      else if jsPriority.any (fun x => containsStr el x) then
        (acc.1 ++ [e], acc.2)
      else (acc.1, acc.2 ++ [e]))
    ([], [])

/-- Embeds `JavaScriptScraper._extract_email` (lines 108-148): mailto link
first, then the generic pattern over the rendered text with
blacklist/priority ranking. -/
def jsExtractEmail (mailtoEmail : Option String) (page_text : String) :
    String :=
  let s1 : Option String :=
    match mailtoEmail with
    | some e => if containsChar e '@' then some e else none
    | none => none
  match s1 with
  | some e => e
  | none =>
    match jsClassifyEmails (findEmails page_text) with
    | (p :: _, _) => p
    | ([], o :: _) => o
    | ([], []) => "N/A"

/-- Embeds `JavaScriptScraper._extract_city` (lines 150-165); the gazetteer
literal is the same list as in `scraper_simple.py`. -/
def jsExtractCity (text : String) : String :=
  let tl := lowerStr text
  match findFirst (fun city => containsStr tl (lowerStr city))
      ScraperSimple.gtaCities with
  | some city => city
  | none => "N/A"

/-- The three court patterns of `_extract_courts` (lines 169-173):
`(\d+)\s+(?:tennis\s+)?courts?`, `courts?[:\s]+(\d+)`, `(\d+)[-\s]court`. -/
def jsCourtPatterns : List RE :=
  [seqAll [.grp 1 dig1, sp1, ScraperSimple.tennisOpt, ScraperSimple.courtsSfx],
   seqAll [strR "court", .opt (chR 's'), .plusCls ScraperSimple.colonSp,
           .grp 1 dig1],
   seqAll [.grp 1 dig1, .cls (fun c => c = '-' || pySpace c), strR "court"]]

/-- Embeds `JavaScriptScraper._extract_courts` (lines 167-182): every match
of each pattern in order, first count inside `[1, 50]` wins. -/
def jsExtractCourts (page_text : String) : String :=
  let t := lowerStr page_text
  match pickFirst
      (fun r =>
        findFirst ScraperSimple.courtInRange
          ((findAll r t).map fun m => capNat m.2 1))
      jsCourtPatterns with
  | some n => toString n
  | none => "N/A"

/-- Pattern `\bhard\s*court|\bhardcourt` (line 189). -/
def jsHardPat : RE :=
  altAll [seqAll [.wordB, strR "hard", sp0, strR "court"],
          seqAll [.wordB, strR "hardcourt"]]

/-- Pattern `\bclay\s*court` (line 191). -/
def jsClayPat : RE := seqAll [.wordB, strR "clay", sp0, strR "court"]

/-- Pattern `\bindoor` (line 193). -/
def jsIndoorPat : RE := seqAll [.wordB, strR "indoor"]

/-- Embeds `JavaScriptScraper._extract_surface` (lines 184-196). -/
def jsExtractSurface (page_text : String) : String :=
  let t := lowerStr page_text
  let l0 : List String := []
  let l1 := if reSearchB jsHardPat t then l0 ++ ["Hard"] else l0
  let l2 := if reSearchB jsClayPat t then l1 ++ ["Clay"] else l1
  let l3 := if reSearchB jsIndoorPat t then l2 ++ ["Indoor"] else l2
  if l3.isEmpty then "N/A" else joinSep ", " l3

/-- Pattern `accepting\s+(?:new\s+)?members|open\s+membership` (line 202). -/
def jsOpenPat : RE :=
  altAll [seqAll [strR "accepting", sp1, .opt (seqAll [strR "new", sp1]),
                  strR "members"],
          seqAll [strR "open", sp1, strR "membership"]]

/-- Pattern `waitlist|waiting\s+list` (line 204). -/
def jsWaitPat : RE :=
  altAll [strR "waitlist", seqAll [strR "waiting", sp1, strR "list"]]

/-- Pattern `not\s+accepting|closed|full` (line 206). -/
def jsClosedPat : RE :=
  altAll [seqAll [strR "not", sp1, strR "accepting"],
          strR "closed", strR "full"]

/-- Embeds `JavaScriptScraper._extract_membership` (lines 198-209); here the
open check runs first, as in `scraper_simple.py`. -/
def jsExtractMembership (page_text : String) : String :=
  let t := lowerStr page_text
  if reSearchB jsOpenPat t then "Open"
  else if reSearchB jsWaitPat t then "Waitlist"
  else if reSearchB jsClosedPat t then "Closed"
  else "N/A"

/-- Embeds `JavaScriptScraper._extract_club_type` (lines 211-220). -/
def jsExtractClubType (page_text : String) : String :=
  let t := lowerStr page_text
  if reSearchB (seqAll [strR "private", sp1, strR "club"]) t then "Private"
  else if reSearchB (altAll [strR "public", strR "community",
      strR "municipal"]) t then "Public"
  else "N/A"

/-- Embeds `JavaScriptScraper.scrape_club` (scraper_js.py lines 32-106):
the same initial record as the simple scraper, unconditional extraction of
six fields on success, and a status string per failure kind. -/
def scrape_club (url club_name : String) (fetch : JsFetchOutcome) : PyDict :=
  let result := ScraperSimple.initResult club_name url
  match fetch with
  | .success page_text mailtoEmail =>
    let r := dictSet result "Email" (jsExtractEmail mailtoEmail page_text)
    let r := dictSet r "Location" (jsExtractCity page_text)
    let r := dictSet r "Number of Courts" (jsExtractCourts page_text)
    let r := dictSet r "Court Surface" (jsExtractSurface page_text)
    let r := dictSet r "Membership Status" (jsExtractMembership page_text)
    let r := dictSet r "Club Type" (jsExtractClubType page_text)
    dictSet r "Scrape Status" "Success (JS-enabled)"
  | .timeout => dictSet result "Scrape Status" "Timeout (JS)"
  | .error exnName => dictSet result "Scrape Status" ("JS Error: " ++ exnName)

end ScraperJs

/-! ## `scraper_hybrid.py` — hybrid orchestration -/

namespace ScraperHybrid

/-- Embeds `HybridScraper._has_minimal_data` (scraper_hybrid.py lines
88-101): fewer than three of the seven data fields populated, unless the
record is already a clean pre-load. -/
def has_minimal_data (result : PyDict) : Bool :=
  let data_fields := ["Email", "Location", "Club Type", "Membership Status",
                      "Waitlist Length", "Number of Courts", "Court Surface"]
  let nonNaCount :=
    data_fields.countP fun f => !((dictGet result f).getD "N/A" == "N/A")
  if ScraperSimple.strStarts (getv result "Scrape Status") "Pre-loaded" then
    false
  else decide (nonNaCount < 3)

/-- Embeds `HybridScraper.scrape_club` (lines 39-86): run the simple
scraper; when the JS fallback is enabled and the result was JS-heavy or a
minimal success, rerun with the JS scraper and copy each JS field into the
slots still holding the sentinel, then relabel a successful retry as a
hybrid success. -/
def scrape_club (useJsFallback : Bool) (merger : Option PyDict)
    (url club_name : String) (fetch : ScraperSimple.FetchOutcome)
    (jsFetch : ScraperJs.JsFetchOutcome) : PyDict :=
  let result := ScraperSimple.scrape_club merger url club_name fetch
  let shouldRetry :=
    useJsFallback &&
      ((getv result "Scrape Status" == "JS-heavy (limited data)") ||
        ((getv result "Scrape Status" == "Success") &&
          has_minimal_data result))
  if shouldRetry then
    let preLoadedData :=
      result.filter fun kv =>
        !(kv.2 == "N/A") &&
          !(["Club Name", "Website", "Scrape Status"].contains kv.1)
    let js_result := ScraperJs.scrape_club url club_name jsFetch
    let merged :=
      js_result.foldl
        (fun acc kv =>
          if kv.1 = "Club Name" ∨ kv.1 = "Website" then acc
          else if dictGet acc kv.1 = some "N/A" ∧ kv.2 ≠ "N/A" then
            dictSet acc kv.1 kv.2
          else acc)
        result
    if ScraperSimple.strStarts (getv js_result "Scrape Status") "Success" then
      dictSet merged "Scrape Status"
        (if preLoadedData.isEmpty then "Success (Hybrid)"
         else "Success (Hybrid+Pre-loaded)")
    else merged
  else result

end ScraperHybrid

/-! ## `app.py` — the outreach e-mail selection -/

namespace AppServer

/-- The per-record predicate of `/api/send-emails` (app.py lines 279-284):
`result.get('Email') != 'N/A' and result.get('Email') and
(result.get('Waitlist Length') == 'N/A' or
 result.get('Membership Status') == 'N/A')`.
A missing key reads as Python `None`, which passes the first test and fails
the truthiness test. -/
def send_emails_pred (r : PyDict) : Bool :=
  (!(dictGet r "Email" == some "N/A")) &&
    (match dictGet r "Email" with
     | none => false
     | some s => !(s == "")) &&
    ((dictGet r "Waitlist Length" == some "N/A") ||
      (dictGet r "Membership Status" == some "N/A"))

/-- The clubs selected for outreach by `/api/send-emails`. -/
def send_emails_filter (results : List PyDict) : List PyDict :=
  results.filter send_emails_pred

end AppServer

/-! ## `email_agent.py` — missing-data identification -/

namespace EmailAgent

/-- The completeness check list of `identify_clubs_with_missing_data`
(email_agent.py lines 85-89); note the key `"Current Waitlist Length"`. -/
def important_fields : List String :=
  ["Location", "Email", "Club Type", "Membership Status",
   "Current Waitlist Length", "Number of Courts",
   "Court Surface", "Operating Season"]

/-- The missing-field list of one club (lines 91-92): the important fields
whose lookup yields exactly the sentinel (`club.get(field) == 'N/A'`). -/
def missing_fields (club : PyDict) : List String :=
  important_fields.filter fun f => dictGet club f == some "N/A"

/-- Embeds `EmailAgent.identify_clubs_with_missing_data` (lines 69-102):
keep each club whose e-mail is the sentinel or whose missing-field count
reaches the threshold, paired with its missing fields. -/
def identify_clubs_with_missing_data (clubs : List PyDict)
    (threshold : Nat) : List (PyDict × List String) :=
  clubs.filterMap fun club =>
    if (dictGet club "Email" == some "N/A") ||
        decide (threshold ≤ (missing_fields club).length) then
      some (club, missing_fields club)
    else none

end EmailAgent


/-! ## Supporting definitions for the claim theorems -/

/-- Whether a record carries a binding for a key. -/
def hasKey (r : PyDict) (k : String) : Bool :=
  (dictGet r k).isSome

namespace ScraperSimple

/-- The eleven schema keys every record of `scrape_club` is built over. -/
def schemaKeys : List String :=
  ["Club Name", "Website", "Email", "Location", "Club Type",
   "Membership Status", "Waitlist Length", "Number of Courts",
   "Court Surface", "Operating Season", "Scrape Status"]

/-- The eight data fields of the record (everything except name, website
and status). -/
def dataKeys : List String :=
  ["Email", "Location", "Club Type", "Membership Status", "Waitlist Length",
   "Number of Courts", "Court Surface", "Operating Season"]

/-- A page with the given visible text and no interesting DOM queries. -/
def plainSoup (t : String) : Soup :=
  { pageText := t, jsHeavy := false, mailtoEmail := none, metaEmail := none,
    contactText := none, footerText := none, facilitiesText := none,
    hasContactLinks := false }

/-- A long page (past the 200-character content threshold) that carries an
e-mail address different from any preloaded one. -/
def otherEmailPage : String :=
  String.mk (List.replicate 200 'x') ++ " contact@other.com"

/-- The prose page of the de-obfuscation claim: it contains no `@` and no
e-mail address, but a contact-page link exists. -/
def proseSoup : Soup :=
  { pageText := "open at 9. Contact", jsHeavy := false, mailtoEmail := none,
    metaEmail := none, contactText := none, footerText := none,
    facilitiesText := none, hasContactLinks := true }

end ScraperSimple

namespace AppServer

/-- A record whose e-mail field holds the contact-form placeholder and whose
waitlist field is missing. -/
def contactFormRec : PyDict :=
  [("Club Name", "C"), ("Email", "Contact form available"),
   ("Waitlist Length", "N/A"), ("Membership Status", "Open")]

/-- A record with a real e-mail whose only missing informational field is
the location. -/
def locationMissingRec : PyDict :=
  [("Club Name", "D"), ("Email", "d@x.com"), ("Location", "N/A"),
   ("Waitlist Length", "5"), ("Membership Status", "Open"),
   ("Club Type", "Private"), ("Number of Courts", "4"),
   ("Court Surface", "Hard"), ("Operating Season", "Year-round")]

end AppServer


/-! # Theorems -/

/-! ## Helper lemmas about the dict and loop embeddings -/

theorem dictGet_dictSet (d : PyDict) (k' v k : String) :
    dictGet (dictSet d k' v) k = if k' = k then some v else dictGet d k := by
  induction d with
  | nil =>
    by_cases h : k' = k <;> simp [dictSet, dictGet, h]
  | cons kv rest ih =>
    by_cases h1 : kv.1 = k'
    · by_cases h2 : k' = k <;> simp [dictSet, dictGet, h1, h2]
    · by_cases h2 : k' = k
      · subst h2
        simp [dictSet, dictGet, h1, ih]
      · have h4 : ¬(k = k') := fun hh => h2 hh.symm
        by_cases h3 : kv.1 = k <;> simp [dictSet, dictGet, h1, h2, h3, h4, ih]

theorem dictGet_dictSet_ne (d : PyDict) (k' v k : String) (h : k' ≠ k) :
    dictGet (dictSet d k' v) k = dictGet d k := by
  rw [dictGet_dictSet, if_neg h]

theorem dictGet_dictSet_self (d : PyDict) (k v : String) :
    dictGet (dictSet d k v) k = some v := by
  rw [dictGet_dictSet, if_pos rfl]

theorem dictGet_append (a b : PyDict) (k : String) :
    dictGet (a ++ b) k = optOr (dictGet a k) (dictGet b k) := by
  induction a with
  | nil => simp [dictGet, optOr]
  | cons kv rest ih =>
    by_cases h : kv.1 = k <;> simp [dictGet, h, ih, optOr]

theorem dictGet_foldl_set (l : PyDict) (e : PyDict) (k : String) :
    dictGet (l.foldl (fun acc kv => dictSet acc kv.1 kv.2) e) k =
      optOr (lookupLast l k) (dictGet e k) := by
  induction l generalizing e with
  | nil => simp [lookupLast, dictGet, optOr]
  | cons kv rest ih =>
    simp only [List.foldl_cons, ih, lookupLast, List.reverse_cons, dictGet_append]
    rw [dictGet_dictSet]
    by_cases h : kv.1 = k <;>
      cases hrest : dictGet rest.reverse k <;>
      simp [optOr, dictGet, h]

theorem pickFirst_some {α β : Type} {f : α → Option β} {l : List α} {b : β}
    (h : pickFirst f l = some b) : ∃ a ∈ l, f a = some b := by
  induction l with
  | nil => simp [pickFirst] at h
  | cons a rest ih =>
    by_cases hfa : (f a).isSome
    · obtain ⟨b1, hb1⟩ := Option.isSome_iff_exists.mp hfa
      simp [pickFirst, hb1] at h
      exact ⟨a, by simp, by rw [hb1, h]⟩
    · have hnone : f a = none := Option.not_isSome_iff_eq_none.mp hfa
      simp [pickFirst, hnone] at h
      obtain ⟨a1, ha1, hfa1⟩ := ih h
      exact ⟨a1, by simp [ha1], hfa1⟩

theorem findFirst_some {α : Type} {p : α → Bool} {l : List α} {a : α}
    (h : findFirst p l = some a) : p a = true := by
  induction l with
  | nil => simp [findFirst] at h
  | cons x rest ih =>
    by_cases hx : p x
    · simp [findFirst, hx] at h
      rw [← h]
      exact hx
    · simp [findFirst, hx] at h
      exact ih h


/-! ## Claims C1 and C7 (data merger) -/

/-- Claim C1, counterexample.  The claim says a field of the existing entry
that already holds a non-sentinel value is never overwritten by the later
source.  In the code (`build_lookup_dict` line 130) the update copies every
non-`"N/A"` binding of the later row: merging an OTA entry whose
`Club Type` is `"Private"` with a Toronto row whose `Club Type` is
`"Public"` overwrites the existing non-sentinel value with `"Public"`. -/
theorem c1_merge_overwrite_counterexample :
    dictGet DataMerger.otaEntryEx "Club Type" = some "Private" ∧
    dictGet DataMerger.torontoEntryEx "Club Type" = some "Public" ∧
    dictGet (DataMerger.mergeEntryAmend DataMerger.otaEntryEx
        DataMerger.torontoEntryEx) "Club Type" = some "Public" := by
  decide

/-- Claim C1, amended.  In `build_lookup_dict`'s merge a field of the later
source is copied exactly when the later source's value is non-`"N/A"`
(so a later `"N/A"` never blanks an existing value, but a later non-sentinel
value does overwrite an existing non-sentinel value), and the source tag
becomes the combination.  The spec's own example still holds: merging
`{Email: "a@x.com", Courts: "N/A"}` then `{Email: "N/A", Courts: "4"}`
yields `{Email: "a@x.com", Courts: "4"}`. -/
theorem c1_merge_amended :
    (∀ existing data : PyDict, ∀ k : String,
      dictGet (DataMerger.mergeEntryAmend existing data) k =
        if k = "source" then some "OTA+Toronto"
        else optOr (lookupLast (DataMerger.filterNonNA data) k)
          (dictGet existing k)) ∧
    dictGet (DataMerger.mergeEntryAmend DataMerger.specExistingEx
        DataMerger.specLaterEx) "Email" = some "a@x.com" ∧
    dictGet (DataMerger.mergeEntryAmend DataMerger.specExistingEx
        DataMerger.specLaterEx) "Number of Courts" = some "4" := by
  refine ⟨?_, by decide, by decide⟩
  intro existing data k
  unfold DataMerger.mergeEntryAmend dictUpdate
  rw [dictGet_dictSet]
  by_cases h : k = "source"
  · subst h
    simp
  · rw [if_neg (fun hh => h hh.symm), if_neg h, dictGet_foldl_set]

/-- Claim C7: the normalizers identify the spec's formatting variants.
`normalize_name` sends both `"ABC  Tennis   Club"` and `"abc tc"` to the key
`"abc"`, and `normalize_url` sends both `"https://www.Example.com/"` and
`"example.com"` to `"example.com"`.  Both embeddings are plain total Lean
functions (they return a string for every input, including the `NaN` case
modelled by `none`), matching the purity/totality contract. -/
theorem c7_normalizer_variants :
    DataMerger.normalize_name (some "ABC  Tennis   Club") =
      DataMerger.normalize_name (some "abc tc") ∧
    DataMerger.normalize_url (some "https://www.Example.com/") =
      DataMerger.normalize_url (some "example.com") := by
  decide

/-! ## Preservation lemmas for the record-building loops -/

theorem preFold_keeps (ex : PyDict) (k v : String)
    (hex : dictGet ex k = some v) (hv : v ≠ "N/A") :
    ∀ (l : List String) (r : PyDict), dictGet r k = some v →
      dictGet (l.foldl
        (fun acc k' =>
          match dictGet ex k' with
          | some w => if w ≠ "N/A" then dictSet acc k' w else acc
          | none => acc) r) k = some v := by
  intro l
  induction l with
  | nil => intro r hr; simpa using hr
  | cons k' rest ih =>
    intro r hr
    simp only [List.foldl_cons]
    apply ih
    by_cases hk : k' = k
    · subst hk
      rw [hex]
      dsimp only
      rw [if_pos hv, dictGet_dictSet_self]
    · cases hex2 : dictGet ex k' with
      | none => exact hr
      | some w =>
        dsimp only
        by_cases hw : w ≠ "N/A"
        · rw [if_pos hw, dictGet_dictSet_ne _ _ _ _ hk]
          exact hr
        · rw [if_neg hw]
          exact hr

theorem preFold_sets (ex : PyDict) (k v : String)
    (hex : dictGet ex k = some v) (hv : v ≠ "N/A") :
    ∀ (l : List String) (r : PyDict), k ∈ l →
      dictGet (l.foldl
        (fun acc k' =>
          match dictGet ex k' with
          | some w => if w ≠ "N/A" then dictSet acc k' w else acc
          | none => acc) r) k = some v := by
  intro l
  induction l with
  | nil => intro r h; cases h
  | cons k' rest ih =>
    intro r hmem
    simp only [List.foldl_cons]
    rcases List.mem_cons.mp hmem with h | h
    · subst h
      apply preFold_keeps ex k v hex hv rest
      rw [hex]
      dsimp only
      rw [if_pos hv, dictGet_dictSet_self]
    · exact ih _ h

theorem extractFold_keeps (soup : ScraperSimple.Soup) (pt : String)
    (k v : String) (hv : v ≠ "N/A") :
    ∀ (l : List (String × (ScraperSimple.Soup → String → String)))
      (r : PyDict), dictGet r k = some v →
      dictGet (l.foldl
        (fun acc kf =>
          if getv acc kf.1 = "N/A" then dictSet acc kf.1 (kf.2 soup pt)
          else acc) r) k = some v := by
  intro l
  induction l with
  | nil => intro r hr; simpa using hr
  | cons kf rest ih =>
    intro r hr
    simp only [List.foldl_cons]
    apply ih
    by_cases hk : kf.1 = k
    · have hne : getv r kf.1 ≠ "N/A" := by
        rw [hk]
        unfold getv
        rw [hr]
        simpa using hv
      rw [if_neg hne]
      exact hr
    · by_cases hna : getv r kf.1 = "N/A"
      · rw [if_pos hna, dictGet_dictSet_ne _ _ _ _ hk]
        exact hr
      · rw [if_neg hna]
        exact hr

theorem mergeFold_keeps (k v : String) (hv : v ≠ "N/A") :
    ∀ (l : PyDict) (r : PyDict), dictGet r k = some v →
      dictGet (l.foldl
        (fun acc kv =>
          if kv.1 = "Club Name" ∨ kv.1 = "Website" then acc
          else if dictGet acc kv.1 = some "N/A" ∧ kv.2 ≠ "N/A" then
            dictSet acc kv.1 kv.2
          else acc) r) k = some v := by
  intro l
  induction l with
  | nil => intro r hr; simpa using hr
  | cons kv rest ih =>
    intro r hr
    simp only [List.foldl_cons]
    apply ih
    by_cases hskip : kv.1 = "Club Name" ∨ kv.1 = "Website"
    · rw [if_pos hskip]
      exact hr
    · rw [if_neg hskip]
      by_cases hk : kv.1 = k
    
      · have hcond : ¬(dictGet r kv.1 = some "N/A" ∧ kv.2 ≠ "N/A") := by
          rw [hk, hr]
          simp [hv]
        rw [if_neg hcond]
        exact hr
      · by_cases hcond : dictGet r kv.1 = some "N/A" ∧ kv.2 ≠ "N/A"
        · rw [if_pos hcond, dictGet_dictSet_ne _ _ _ _ hk]
          exact hr
        · rw [if_neg hcond]
          exact hr

theorem hasKey_dictSet (r : PyDict) (k' v k : String)
    (h : hasKey r k = true) : hasKey (dictSet r k' v) k = true := by
  unfold hasKey at h ⊢
  rw [dictGet_dictSet]
  by_cases hk : k' = k
  · simp [hk]
  · rw [if_neg hk]
    exact h

theorem preFold_hasKey (ex : PyDict) (k : String) :
    ∀ (l : List String) (r : PyDict), hasKey r k = true →
      hasKey (l.foldl
        (fun acc k' =>
          match dictGet ex k' with
          | some w => if w ≠ "N/A" then dictSet acc k' w else acc
          | none => acc) r) k = true := by
  intro l
  induction l with
  | nil => intro r hr; simpa using hr
  | cons k' rest ih =>
    intro r hr
    simp only [List.foldl_cons]
    apply ih
    cases hex2 : dictGet ex k' with
    | none => exact hr
    | some w =>
      dsimp only
      by_cases hw : w ≠ "N/A"
      · rw [if_pos hw]
        exact hasKey_dictSet _ _ _ _ hr
      · rw [if_neg hw]
        exact hr

theorem extractFold_hasKey (soup : ScraperSimple.Soup) (pt : String)
    (k : String) :
    ∀ (l : List (String × (ScraperSimple.Soup → String → String)))
      (r : PyDict), hasKey r k = true →
      hasKey (l.foldl
        (fun acc kf =>
          if getv acc kf.1 = "N/A" then dictSet acc kf.1 (kf.2 soup pt)
          else acc) r) k = true := by
  intro l
  induction l with
  | nil => intro r hr; simpa using hr
  | cons kf rest ih =>
    intro r hr
    simp only [List.foldl_cons]
    apply ih
    by_cases hna : getv r kf.1 = "N/A"
    · rw [if_pos hna]
      exact hasKey_dictSet _ _ _ _ hr
    · rw [if_neg hna]
      exact hr

theorem preFold_other (ex : PyDict) (k : String) :
    ∀ (l : List String), k ∉ l → ∀ (r : PyDict),
      dictGet (l.foldl
        (fun acc k' =>
          match dictGet ex k' with
          | some w => if w ≠ "N/A" then dictSet acc k' w else acc
          | none => acc) r) k = dictGet r k := by
  intro l
  induction l with
  | nil => intro _ r; rfl
  | cons k' rest ih =>
    intro hmem r
    have hk : k' ≠ k := fun h => hmem (h ▸ List.mem_cons_self k' rest)
    have hrest : k ∉ rest := fun h => hmem (List.mem_cons_of_mem _ h)
    simp only [List.foldl_cons]
    rw [ih hrest]
    cases hex2 : dictGet ex k' with
    | none => rfl
    | some w =>
      dsimp only
      by_cases hw : w ≠ "N/A"
      · rw [if_pos hw, dictGet_dictSet_ne _ _ _ _ hk]
      · rw [if_neg hw]

theorem extractFold_other (soup : ScraperSimple.Soup) (pt : String)
    (k : String) :
    ∀ (l : List (String × (ScraperSimple.Soup → String → String))),
      k ∉ l.map Prod.fst → ∀ (r : PyDict),
      dictGet (l.foldl
        (fun acc kf =>
          if getv acc kf.1 = "N/A" then dictSet acc kf.1 (kf.2 soup pt)
          else acc) r) k = dictGet r k := by
  intro l
  induction l with
  | nil => intro _ r; rfl
  | cons kf rest ih =>
    intro hmem r
    have hk : kf.1 ≠ k := by
      intro h
      exact hmem (by simp [h])
    have hrest : k ∉ rest.map Prod.fst := by
      intro h
      exact hmem (by simp [List.mem_map] at h ⊢; tauto)
    simp only [List.foldl_cons]
    rw [ih hrest]
    by_cases hna : getv r kf.1 = "N/A"
    · rw [if_pos hna, dictGet_dictSet_ne _ _ _ _ hk]
    · rw [if_neg hna]

/-! ## Phase-level lemmas for `scrape_club` -/

theorem preloadKeys_ne_status {k : String}
    (hk : k ∈ ScraperSimple.preloadKeys) : k ≠ "Scrape Status" := by
  fin_cases hk <;> decide

theorem preloadPhase_seeds (ex : PyDict) (url name k v : String)
    (hk : k ∈ ScraperSimple.preloadKeys)
    (hex : dictGet ex k = some v) (hv : v ≠ "N/A") :
    dictGet (ScraperSimple.preloadPhase (some ex) url name) k = some v := by
  have hks := preloadKeys_ne_status hk
  have h1 : dictGet
      (ScraperSimple.applyPreload (ScraperSimple.initResult name url) ex) k =
      some v := preFold_sets ex k v hex hv _ _ hk
  unfold ScraperSimple.preloadPhase
  dsimp only
  split
  · rw [dictGet_dictSet_ne _ _ _ _ (Ne.symm hks)]
    exact h1
  · exact h1

theorem scrape_club_keeps (ex : PyDict) (url name : String)
    (fetch : ScraperSimple.FetchOutcome) (k v : String)
    (hk : k ∈ ScraperSimple.preloadKeys)
    (hex : dictGet ex k = some v) (hv : v ≠ "N/A") :
    dictGet (ScraperSimple.scrape_club (some ex) url name fetch) k =
      some v := by
  have hks := preloadKeys_ne_status hk
  have hpre := preloadPhase_seeds ex url name k v hk hex hv
  unfold ScraperSimple.scrape_club
  cases fetch with
  | fail f =>
    rw [dictGet_dictSet_ne _ _ _ _ (Ne.symm hks)]
    exact hpre
  | success soup =>
    dsimp only
    split
    · rw [dictGet_dictSet_ne _ _ _ _ (Ne.symm hks)]
      exact hpre
    · have hextr : dictGet
          (ScraperSimple.extractPhase soup soup.pageText
            (ScraperSimple.preloadPhase (some ex) url name)) k = some v :=
        extractFold_keeps soup soup.pageText k v hv _ _ hpre
      split
      · exact hextr
      · split
        · rw [dictGet_dictSet_ne _ _ _ _ (Ne.symm hks)]
          exact hextr
        · rw [dictGet_dictSet_ne _ _ _ _ (Ne.symm hks)]
          exact hextr

theorem hybrid_keeps (ex : PyDict) (useJs : Bool) (url name : String)
    (fetch : ScraperSimple.FetchOutcome)
    (jsFetch : ScraperJs.JsFetchOutcome) (k v : String)
    (hk : k ∈ ScraperSimple.preloadKeys)
    (hex : dictGet ex k = some v) (hv : v ≠ "N/A") :
    dictGet
      (ScraperHybrid.scrape_club useJs (some ex) url name fetch jsFetch) k =
      some v := by
  have hks := preloadKeys_ne_status hk
  have hsc := scrape_club_keeps ex url name fetch k v hk hex hv
  unfold ScraperHybrid.scrape_club
  dsimp only
  split
  · have hmerged := mergeFold_keeps k v hv
      (ScraperJs.scrape_club url name jsFetch)
      (ScraperSimple.scrape_club (some ex) url name fetch) hsc
    split
    · rw [dictGet_dictSet_ne _ _ _ _ (Ne.symm hks)]
      exact hmerged
    · exact hmerged
  · exact hsc

/-! ## Claim C2 (preload precedence) -/

/-- Claim C2: pre-loaded data outranks scraped data unconditionally.  If the
merger entry carries a non-sentinel value for one of the preload fields,
then after `scrape_club` — for every fetch outcome, in particular a
successful fetch whose page contains a different value — and after the
hybrid orchestration including the JS retry merge, the record still holds
exactly the seeded value.  The extraction steps are guarded by
`result[key] == 'N/A'`, so no extractor result can replace it. -/
theorem c2_preload_precedence (ex : PyDict) (url name : String)
    (fetch : ScraperSimple.FetchOutcome) (useJs : Bool)
    (jsFetch : ScraperJs.JsFetchOutcome) (k v : String)
    (hk : k ∈ ScraperSimple.preloadKeys)
    (hex : dictGet ex k = some v) (hv : v ≠ "N/A") :
    dictGet (ScraperSimple.scrape_club (some ex) url name fetch) k = some v ∧
    dictGet
      (ScraperHybrid.scrape_club useJs (some ex) url name fetch jsFetch) k =
      some v :=
  ⟨scrape_club_keeps ex url name fetch k v hk hex hv,
   hybrid_keeps ex useJs url name fetch jsFetch k v hk hex hv⟩

/-- Witness for C2: a club preloaded with `Email = "a@x.com"` keeps that
address through a successful fetch of a long page containing
`contact@other.com`, both in the simple scraper and through the hybrid
retry. -/
theorem c2_preload_precedence_witness :
    dictGet
      (ScraperSimple.scrape_club (some [("Email", "a@x.com")]) "x.ca" "X"
        (.success (ScraperSimple.plainSoup ScraperSimple.otherEmailPage)))
      "Email" = some "a@x.com" ∧
    dictGet
      (ScraperHybrid.scrape_club true (some [("Email", "a@x.com")]) "x.ca"
        "X" (.success (ScraperSimple.plainSoup ScraperSimple.otherEmailPage))
        (.success "contact third@x.ca now" none)) "Email" = some "a@x.com" :=
  c2_preload_precedence [("Email", "a@x.com")] "x.ca" "X"
    (.success (ScraperSimple.plainSoup ScraperSimple.otherEmailPage)) true
    (.success "contact third@x.ca now" none) "Email" "a@x.com"
    (by decide) (by decide) (by decide)

/-! ## Claim C5 (fetch failure is atomic) -/

/-- Claim C5: a fetch failure is atomic for the record.  For every failing
fetch, every field other than the status keeps exactly its post-preload
value (no extractor output ever enters the record), the status becomes the
failure reason string, every data field of a record without preload stays
`"N/A"`, and an HTTP 404 failure yields the status `"HTTP 404"`. -/
theorem c5_fetch_failure_atomic (merger : Option PyDict) (url name : String)
    (f : ScraperSimple.FetchFailure) :
    (∀ k : String, k ≠ "Scrape Status" →
      dictGet (ScraperSimple.scrape_club merger url name (.fail f)) k =
        dictGet (ScraperSimple.preloadPhase merger url name) k) ∧
    dictGet (ScraperSimple.scrape_club merger url name (.fail f))
      "Scrape Status" = some (ScraperSimple.failureMsg f) ∧
    (∀ k ∈ ScraperSimple.dataKeys,
      dictGet (ScraperSimple.scrape_club none url name (.fail f)) k =
        some "N/A") ∧
    ScraperSimple.failureMsg (.httpError 404) = "HTTP 404" := by
  refine ⟨?_, ?_, ?_, rfl⟩
  · intro k hk
    show dictGet
      (dictSet (ScraperSimple.preloadPhase merger url name) "Scrape Status"
        (ScraperSimple.failureMsg f)) k = _
    exact dictGet_dictSet_ne _ _ _ _ (Ne.symm hk)
  · show dictGet
      (dictSet (ScraperSimple.preloadPhase merger url name) "Scrape Status"
        (ScraperSimple.failureMsg f)) "Scrape Status" = _
    exact dictGet_dictSet_self _ _ _
  · intro k hk
    fin_cases hk <;> rfl

/-- Witness for C5 at `Email` and an HTTP 404 failure. -/
theorem c5_fetch_failure_atomic_witness :
    dictGet
      (ScraperSimple.scrape_club none "x.ca" "X" (.fail (.httpError 404)))
      "Email" =
      dictGet (ScraperSimple.preloadPhase none "x.ca" "X") "Email" ∧
    dictGet
      (ScraperSimple.scrape_club none "x.ca" "X" (.fail (.httpError 404)))
      "Email" = some "N/A" :=
  ⟨(c5_fetch_failure_atomic none "x.ca" "X" (.httpError 404)).1 "Email"
      (by decide),
   (c5_fetch_failure_atomic none "x.ca" "X" (.httpError 404)).2.2.1 "Email"
      (by decide)⟩

/-! ## Claim C8 (every schema field always present) -/

theorem initResult_hasKey (name url : String) {k : String}
    (hk : k ∈ ScraperSimple.schemaKeys) :
    hasKey (ScraperSimple.initResult name url) k = true := by
  fin_cases hk <;> rfl

theorem preloadPhase_hasKey (merger : Option PyDict) (url name k : String)
    (h : hasKey (ScraperSimple.initResult name url) k = true) :
    hasKey (ScraperSimple.preloadPhase merger url name) k = true := by
  unfold ScraperSimple.preloadPhase
  cases merger with
  | none => exact h
  | some ex =>
    dsimp only
    have h1 : hasKey
        (ScraperSimple.applyPreload (ScraperSimple.initResult name url) ex) k
        = true := preFold_hasKey ex k _ _ h
    split
    · exact hasKey_dictSet _ _ _ _ h1
    · exact h1

theorem scrape_club_hasKey (merger : Option PyDict) (url name : String)
    (fetch : ScraperSimple.FetchOutcome) (k : String)
    (h : hasKey (ScraperSimple.initResult name url) k = true) :
    hasKey (ScraperSimple.scrape_club merger url name fetch) k = true := by
  have hpre := preloadPhase_hasKey merger url name k h
  unfold ScraperSimple.scrape_club
  cases fetch with
  | fail f => exact hasKey_dictSet _ _ _ _ hpre
  | success soup =>
    dsimp only
    split
    · exact hasKey_dictSet _ _ _ _ hpre
    · have hex : hasKey
          (ScraperSimple.extractPhase soup soup.pageText
            (ScraperSimple.preloadPhase merger url name)) k = true :=
        extractFold_hasKey soup soup.pageText k _ _ hpre
      split
      · exact hex
      · split
        · exact hasKey_dictSet _ _ _ _ hex
        · exact hasKey_dictSet _ _ _ _ hex

theorem js_scrape_club_hasKey (url name : String)
    (jsFetch : ScraperJs.JsFetchOutcome) (k : String)
    (h : hasKey (ScraperSimple.initResult name url) k = true) :
    hasKey (ScraperJs.scrape_club url name jsFetch) k = true := by
  unfold ScraperJs.scrape_club
  cases jsFetch with
  | success pt mailto =>
    dsimp only
    exact hasKey_dictSet _ _ _ _ (hasKey_dictSet _ _ _ _
      (hasKey_dictSet _ _ _ _ (hasKey_dictSet _ _ _ _
        (hasKey_dictSet _ _ _ _ (hasKey_dictSet _ _ _ _
          (hasKey_dictSet _ _ _ _ h))))))
  | timeout => exact hasKey_dictSet _ _ _ _ h
  | error exnName => exact hasKey_dictSet _ _ _ _ h

/-- Claim C8: on every path — success, limited content, and every failure —
the record returned by `scrape_club` (and by the JS scraper's
`scrape_club`) carries a binding for every one of the eleven schema fields;
by the embedding's types each binding is a string.  The record starts with
all fields bound (to the sentinel) and is only ever updated in place. -/
theorem c8_schema_fields_present :
    (∀ (merger : Option PyDict) (url name : String)
      (fetch : ScraperSimple.FetchOutcome) (k : String),
      k ∈ ScraperSimple.schemaKeys →
      hasKey (ScraperSimple.scrape_club merger url name fetch) k = true) ∧
    (∀ (url name : String) (jsFetch : ScraperJs.JsFetchOutcome) (k : String),
      k ∈ ScraperSimple.schemaKeys →
      hasKey (ScraperJs.scrape_club url name jsFetch) k = true) :=
  ⟨fun merger url name fetch k hk =>
    scrape_club_hasKey merger url name fetch k (initResult_hasKey name url hk),
   fun url name jsFetch k hk =>
    js_scrape_club_hasKey url name jsFetch k (initResult_hasKey name url hk)⟩

/-- Witness for C8 at the `Waitlist Length` field on a failure path and a
JS timeout path. -/
theorem c8_schema_fields_present_witness :
    hasKey (ScraperSimple.scrape_club none "x.ca" "X" (.fail .timeout))
      "Waitlist Length" = true ∧
    hasKey (ScraperJs.scrape_club "x.ca" "X" .timeout)
      "Waitlist Length" = true :=
  ⟨c8_schema_fields_present.1 none "x.ca" "X" (.fail .timeout)
      "Waitlist Length" (by decide),
   c8_schema_fields_present.2 "x.ca" "X" .timeout
      "Waitlist Length" (by decide)⟩

/-! ## Claim C10 (waitlist key mismatch) -/

theorem preloadPhase_other (merger : Option PyDict) (url name k : String)
    (hk1 : k ∉ ScraperSimple.preloadKeys) (hks : k ≠ "Scrape Status") :
    dictGet (ScraperSimple.preloadPhase merger url name) k =
      dictGet (ScraperSimple.initResult name url) k := by
  unfold ScraperSimple.preloadPhase
  cases merger with
  | none => rfl
  | some ex =>
    dsimp only
    have h1 : dictGet
        (ScraperSimple.applyPreload (ScraperSimple.initResult name url) ex) k
        = dictGet (ScraperSimple.initResult name url) k :=
      preFold_other ex k _ hk1 _
    split
    · rw [dictGet_dictSet_ne _ _ _ _ (Ne.symm hks)]
      exact h1
    · exact h1

theorem scrape_club_other (merger : Option PyDict) (url name : String)
    (fetch : ScraperSimple.FetchOutcome) (k : String)
    (hk1 : k ∉ ScraperSimple.preloadKeys)
    (hk2 : k ∉ ScraperSimple.extractors.map Prod.fst)
    (hks : k ≠ "Scrape Status") :
    dictGet (ScraperSimple.scrape_club merger url name fetch) k =
      dictGet (ScraperSimple.initResult name url) k := by
  have hpre := preloadPhase_other merger url name k hk1 hks
  unfold ScraperSimple.scrape_club
  cases fetch with
  | fail f =>
    rw [dictGet_dictSet_ne _ _ _ _ (Ne.symm hks)]
    exact hpre
  | success soup =>
    dsimp only
    split
    · rw [dictGet_dictSet_ne _ _ _ _ (Ne.symm hks)]
      exact hpre
    · have hex : dictGet
          (ScraperSimple.extractPhase soup soup.pageText
            (ScraperSimple.preloadPhase merger url name)) k =
          dictGet (ScraperSimple.initResult name url) k := by
        unfold ScraperSimple.extractPhase
        rw [extractFold_other soup soup.pageText k _ hk2]
        exact hpre
      split
      · exact hex
      · split
        · rw [dictGet_dictSet_ne _ _ _ _ (Ne.symm hks)]
          exact hex
        · rw [dictGet_dictSet_ne _ _ _ _ (Ne.symm hks)]
          exact hex

/-- Claim C10: `identify_clubs_with_missing_data` checks the key
`"Current Waitlist Length"`, but records built by `scrape_club` in
`scraper_simple.py` use the key `"Waitlist Length"`.  On every path the
returned record has no binding for `"Current Waitlist Length"` (its lookup
yields `none`, which differs from the sentinel), so that field never enters
the computed missing-field list, regardless of whether waitlist data was
found — while the record does carry a `"Waitlist Length"` binding. -/
theorem c10_waitlist_key_mismatch (merger : Option PyDict)
    (url name : String) (fetch : ScraperSimple.FetchOutcome) :
    dictGet (ScraperSimple.scrape_club merger url name fetch)
      "Current Waitlist Length" = none ∧
    "Current Waitlist Length" ∉
      EmailAgent.missing_fields
        (ScraperSimple.scrape_club merger url name fetch) ∧
    hasKey (ScraperSimple.scrape_club merger url name fetch)
      "Waitlist Length" = true := by
  have h1 : dictGet (ScraperSimple.scrape_club merger url name fetch)
      "Current Waitlist Length" = none := by
    rw [scrape_club_other merger url name fetch "Current Waitlist Length"
      (by decide) (by decide) (by decide)]
    rfl
  refine ⟨h1, ?_, ?_⟩
  · intro hmem
    have h2 := (List.mem_filter.mp hmem).2
    rw [h1] at h2
    simp at h2
  · exact scrape_club_hasKey merger url name fetch "Waitlist Length"
      (initResult_hasKey name url (by decide))

/-! ## Claim C3 (waitlist vs open priority) -/

/-- Claim C3, counterexample.  On the page text
`"Accepting new members and a waitlist"` both the open-membership regex and
the waitlist phrases match, yet `scraper_simple.py`'s
`extract_membership_status` returns `"Open"`, not `"Waitlist"`: its
open-membership check runs before the waitlist check. -/
theorem c3_waitlist_priority_counterexample :
    reSearchB ScraperSimple.openPat
      (lowerStr "Accepting new members and a waitlist") = true ∧
    containsStr (lowerStr "Accepting new members and a waitlist")
      "waitlist" = true ∧
    reSearchB ScraperSimple.waitPat
      (lowerStr "Accepting new members and a waitlist") = true ∧
    ScraperSimple.extract_membership_status
      "Accepting new members and a waitlist" = "Open" := by
  decide

/-- Claim C3, amended.  The two extractor variants resolve the conflict in
opposite directions: in `scraper_simple.py` the open check runs first, so
every text matching the open-membership regex reads `"Open"` even when
waitlist phrases also appear; in the Playwright variant (`scraper.py`) the
waitlist check runs first, so every text containing `"waitlist"` reads
`"Waitlist"` regardless of open-membership phrases. -/
theorem c3_membership_priority_amended :
    (∀ t : String, reSearchB ScraperSimple.openPat (lowerStr t) = true →
      ScraperSimple.extract_membership_status t = "Open") ∧
    (∀ t : String, containsStr (lowerStr t) "waitlist" = true →
      ScraperPw.extract_membership_status t = "Waitlist") := by
  constructor
  · intro t h
    unfold ScraperSimple.extract_membership_status
    simp [h]
  · intro t h
    unfold ScraperPw.extract_membership_status
    simp [h]

/-- Witness for the amended C3 on a page carrying both signals. -/
theorem c3_membership_priority_amended_witness :
    ScraperSimple.extract_membership_status
      "open membership applications, join our waitlist" = "Open" ∧
    ScraperPw.extract_membership_status
      "open membership applications, join our waitlist" = "Waitlist" :=
  ⟨c3_membership_priority_amended.1 _ (by decide),
   c3_membership_priority_amended.2 _ (by decide)⟩

/-! ## Claim C4 (court-count sanity bound) -/

theorem courtsStrategy1_inRange {fac : Option String} {n : Nat}
    (h : ScraperSimple.courtsStrategy1 fac = some n) :
    ScraperSimple.courtInRange n = true := by
  unfold ScraperSimple.courtsStrategy1 at h
  cases fac with
  | none => cases h
  | some ft =>
    dsimp only at h
    cases hs : reSearch ScraperSimple.facCourtsPat (lowerStr ft) with
    | none => rw [hs] at h; cases h
    | some caps =>
      rw [hs] at h
      dsimp only at h
      split at h
      · injection h with h2
        rw [← h2]
        assumption
      · cases h

theorem courtsStrategy2_inRange {t : String} {n : Nat}
    (h : ScraperSimple.courtsStrategy2 t = some n) :
    ScraperSimple.courtInRange n = true := by
  unfold ScraperSimple.courtsStrategy2 at h
  obtain ⟨r, _, hr⟩ := pickFirst_some h
  exact findFirst_some hr

theorem courtsStrategy3_inRange {t : String} {n : Nat}
    (h : ScraperSimple.courtsStrategy3 t = some n) :
    ScraperSimple.courtInRange n = true := by
  unfold ScraperSimple.courtsStrategy3 at h
  obtain ⟨wn, hmem, hwn⟩ := pickFirst_some h
  split at hwn
  · injection hwn with h2
    rw [← h2]
    fin_cases hmem <;> decide
  · cases hwn

/-- Claim C4, counterexample.  The claim covers the Playwright variant's
`extract_court_info` as well, but that extractor has no `[1, 50]` sanity
bound: on a page containing only `"500 courts"` it returns `"500"`, not
`"N/A"`. -/
theorem c4_court_bound_counterexample :
    ScraperPw.extract_court_info_num "500 courts" = "500" ∧
    ScraperPw.extract_court_info_num "500 courts" ≠ "N/A" := by
  decide

/-- Claim C4, amended.  In `scraper_simple.py`'s `extract_courts_count` the
bound does hold: on every page and every facilities section the result is
either the sentinel or the decimal of a count in `[1, 50]` (out-of-range
matches are skipped and the first in-range match wins, as the concrete
pages show: `"500 courts"` yields `"N/A"`, `"6 courts"` yields `"6"`, and
`"100 courts and 6 courts"` skips the out-of-range `100` and yields `"6"`).
The Playwright variant's `extract_court_info` has no such bound. -/
theorem c4_court_bound_amended :
    (∀ (soup : ScraperSimple.Soup) (t : String),
      ScraperSimple.extract_courts_count soup t = "N/A" ∨
        ∃ n : Nat, ScraperSimple.courtInRange n = true ∧
          ScraperSimple.extract_courts_count soup t = toString n) ∧
    ScraperSimple.extract_courts_count (ScraperSimple.plainSoup "")
      "500 courts" = "N/A" ∧
    ScraperSimple.extract_courts_count (ScraperSimple.plainSoup "")
      "6 courts" = "6" ∧
    ScraperSimple.extract_courts_count (ScraperSimple.plainSoup "")
      "100 courts and 6 courts" = "6" := by
  refine ⟨?_, by decide, by decide, by decide⟩
  intro soup t
  unfold ScraperSimple.extract_courts_count
  cases h1 : ScraperSimple.courtsStrategy1 soup.facilitiesText with
  | some n =>
    right
    exact ⟨n, courtsStrategy1_inRange h1, by simp [optOr, h1]⟩
  | none =>
    cases h2 : ScraperSimple.courtsStrategy2 (lowerStr t) with
    | some n =>
      right
      exact ⟨n, courtsStrategy2_inRange h2, by simp [optOr, h1, h2]⟩
    | none =>
      cases h3 : ScraperSimple.courtsStrategy3 (lowerStr t) with
      | some n =>
        right
        exact ⟨n, courtsStrategy3_inRange h3, by simp [optOr, h1, h2, h3]⟩
      | none =>
        left
        simp [optOr, h1, h2, h3]

/-! ## Claim C6 (outreach batch selection) -/

/-- Claim C6, counterexample.  The `/api/send-emails` filter does not
exclude the `"Contact form available"` placeholder: a record carrying it
(with a missing waitlist field) is selected for sending.  Conversely a
record with a real address whose only missing informational field is the
location is not selected, because the filter consults only the waitlist and
membership fields. -/
theorem c6_outreach_filter_counterexample :
    AppServer.send_emails_filter [AppServer.contactFormRec] =
      [AppServer.contactFormRec] ∧
    dictGet AppServer.contactFormRec "Email" =
      some "Contact form available" ∧
    AppServer.send_emails_filter [AppServer.locationMissingRec] = [] ∧
    dictGet AppServer.locationMissingRec "Email" = some "d@x.com" ∧
    dictGet AppServer.locationMissingRec "Location" = some "N/A" := by
  decide

theorem send_emails_pred_iff (r : PyDict) :
    AppServer.send_emails_pred r = true ↔
      ∃ e, dictGet r "Email" = some e ∧ e ≠ "N/A" ∧ e ≠ "" ∧
        (dictGet r "Waitlist Length" = some "N/A" ∨
          dictGet r "Membership Status" = some "N/A") := by
  unfold AppServer.send_emails_pred
  cases h : dictGet r "Email" with
  | none => simp [h]
  | some s =>
    simp only [h, Bool.and_eq_true, Bool.or_eq_true, Bool.not_eq_true',
      beq_iff_eq, Option.some.injEq, beq_eq_false_iff_ne, ne_eq]
    constructor
    · rintro ⟨⟨h1, h2⟩, h3⟩
      exact ⟨s, rfl, h1, h2, h3⟩
    · rintro ⟨e, he, h1, h2, h3⟩
      cases he
      exact ⟨⟨h1, h2⟩, h3⟩

/-- Claim C6, amended.  The batch selects exactly the records whose
`Email` binding is present, non-empty and different from the sentinel —
the `"Contact form available"` placeholder is not excluded — and whose
`Waitlist Length` or `Membership Status` equals the sentinel; no other
informational field is consulted. -/
theorem c6_outreach_filter_amended :
    (∀ (results : List PyDict) (r : PyDict),
      r ∈ AppServer.send_emails_filter results ↔
        r ∈ results ∧
          ∃ e, dictGet r "Email" = some e ∧ e ≠ "N/A" ∧ e ≠ "" ∧
            (dictGet r "Waitlist Length" = some "N/A" ∨
              dictGet r "Membership Status" = some "N/A")) ∧
    AppServer.send_emails_pred AppServer.contactFormRec = true := by
  refine ⟨?_, by decide⟩
  intro results r
  unfold AppServer.send_emails_filter
  rw [List.mem_filter, send_emails_pred_iff]

/-! ## Claim C9 (de-obfuscation fabricates an address) -/

/-- Claim C9: the de-obfuscation strategy of `extract_email` fires on
ordinary prose.  The page text `"open at 9. Contact"` contains no `@` and
no e-mail address, and even though a contact-page link exists (so
`"Contact form available"` was reachable as a fallback), the extractor
assembles and returns the fabricated address `"open@9.Contact"` from the
three words around `"at"` and the period. -/
theorem c9_obfuscation_fires_on_prose :
    containsChar "open at 9. Contact" '@' = false ∧
    ScraperSimple.proseSoup.hasContactLinks = true ∧
    ScraperSimple.extract_email ScraperSimple.proseSoup
      "open at 9. Contact" = "open@9.Contact" ∧
    "open@9.Contact" ≠ "N/A" ∧
    "open@9.Contact" ≠ "Contact form available" := by
  decide
